import Mathlib

/-!
Verification development for the Renault vehicle service client
(src/renault5/src/renaultService.js).

The service is embedded shallowly: JavaScript values are modelled by the
inductive `Json` (numbers as rationals — the source only compares them),
the mutable fields of the `RenaultService` object by the state record `W`,
the network by an oracle list of outcomes consumed in call order, and the
promise-based re-login recursion by an explicit fuel parameter.  Every
operation additionally returns the list of network requests it issued, so
statements about "number of network calls" and "token used by a request"
are provable.
-/

set_option maxHeartbeats 1000000

namespace Renault

/-- JavaScript values as the service manipulates them.  Numbers are
rationals: every numeric literal the source compares against (0, 1, 0.9)
and every input in the specification is exactly representable, and the
only numeric operations performed are comparisons, which agree with the
rational ones. -/
inductive Json where
  | null : Json
  | bool : Bool → Json
  | num : ℚ → Json
  | str : String → Json
  | arr : List Json → Json
  | obj : List (String × Json) → Json

/-- Property lookup `o[k]` on an object; `none` models `undefined`
(non-objects and missing keys).  Array index access never occurs on the
paths the source probes. -/
def getField : Json → String → Option Json
  | .obj fs, k => (fs.find? (fun p => p.1 == k)).map (fun p => p.2)
  | _, _ => none

/-- Walk a dotted path, entering only objects, as the loop in `pick` does. -/
def walkPath : Json → List String → Option Json
  | j, [] => some j
  | j, k :: ks =>
    match getField j k with
    | some v => walkPath v ks
    | none => none

/-- Splitting a dotted path into its parts, `p.split(".")`. -/
def splitDotAux : List Char → List Char → List String
  | [], acc => [String.mk acc.reverse]
  | c :: cs, acc =>
    if c = '.' then String.mk acc.reverse :: splitDotAux cs []
    else splitDotAux cs (c :: acc)

def splitOnDot (s : String) : List String := splitDotAux s.toList []

/-- The `pick(obj, paths)` helper: first path whose walk succeeds with a
value that is neither `undefined`, `null` nor the empty string. -/
def pick (j : Json) : List String → Option Json
  | [] => none
  | p :: ps =>
    match walkPath j (splitOnDot p) with
    | some v =>
      match v with
      | .null => pick j ps
      | .str s => if s = "" then pick j ps else some v
      | _ => some v
    | none => pick j ps

/-- JavaScript truthiness of a value. -/
def truthy : Json → Bool
  | .null => false
  | .bool b => b
  | .num q => q != 0
  | .str s => s != ""
  | .arr _ => true
  | .obj _ => true

/-- Truthiness of a possibly-`undefined` value. -/
def truthyOpt : Option Json → Bool
  | some v => truthy v
  | none => false

/-- The `a || b` operator on possibly-`undefined` operands. -/
def jsOr (a b : Option Json) : Option Json :=
  if truthyOpt a then a else b

/-- A truthy-or chain ending in a default, `a || d`. -/
def jsOrD (a : Option Json) (d : Json) : Json :=
  match a with
  | some v => if truthy v then v else d
  | none => d

/-- Decimal digits of a natural number, most significant first; the fuel
is consumed structurally and `n + 1` always suffices since `n / 10`
strictly shrinks. -/
def natDigitsAux : Nat → Nat → List Char → List Char
  | 0, _, acc => acc
  | fuel + 1, n, acc =>
    if n < 10 then Char.ofNat (48 + n) :: acc
    else natDigitsAux fuel (n / 10) (Char.ofNat (48 + n % 10) :: acc)

def natDigits (n : Nat) : List Char := natDigitsAux (n + 1) n []

/-- Smallest exponent k ≤ 30 with d ∣ 10^k, if any: the denominators of
numbers that have a finite decimal rendering. -/
def decExp (d : Nat) : Option Nat :=
  (List.range 31).find? (fun k => 10 ^ k % d == 0)

/-- Rendering of a number as JavaScript `String(x)` produces it, for
numbers with a finite decimal expansion (the only kind the source ever
stringifies; others get a placeholder never used by the claims). -/
def numStr (q : ℚ) : String :=
  let sign := if q < 0 then "-" else ""
  let n := q.num.natAbs
  match decExp q.den with
  | none => sign ++ String.mk (natDigits n) ++ "?"
  | some 0 => sign ++ String.mk (natDigits n)
  | some (k + 1) =>
    let m := n * (10 ^ (k + 1) / q.den)
    let ip := m / 10 ^ (k + 1)
    let fp := m % 10 ^ (k + 1)
    let fpd := natDigits fp
    sign ++ String.mk (natDigits ip) ++ "." ++
      String.mk (List.replicate (k + 1 - fpd.length) (Char.ofNat 48) ++ fpd)

/-- Comma join of array elements, as `Array.prototype.join` renders them
inside `String(v)`. -/
def joinComma : List String → String
  | [] => ""
  | [x] => x
  | x :: y :: xs => x ++ "," ++ joinComma (y :: xs)

/-- Stringification of a non-array value, the element renderer of the
array case below. -/
def jsToStrLeaf : Json → String
  | .null => "null"
  | .bool true => "true"
  | .bool false => "false"
  | .num q => numStr q
  | .str s => s
  | .arr _ => ""
  | .obj _ => "[object Object]"

/-- JavaScript `String(v)` stringification.  Arrays join their rendered
elements with commas; arrays nested two levels deep (which no probed
field ever is) are abstracted to the empty string. -/
def jsToStr : Json → String
  | .arr xs => joinComma (xs.map jsToStrLeaf)
  | v => jsToStrLeaf v

/-- Stringification of `v ?? HH` patterns in the parsers: the stored field
defaults to `null`, and `String(field ?? hhempty)` maps that `null` to the
empty string. -/
def jsToStrND : Json → String
  | .null => ""
  | v => jsToStr v

/-- ASCII lower-casing, as `String.prototype.toLowerCase` acts on the
field values the source inspects. -/
def strLower (s : String) : String :=
  String.mk (s.toList.map Char.toLower)

/-- Substring containment, `haystack.includes(needle)`. -/
def containsSub (s pat : String) : Bool :=
  decide (pat.toList <:+: s.toList)

/-- Decimal digit test. -/
def isDigitCh (c : Char) : Bool :=
  48 ≤ c.toNat && c.toNat ≤ 57

/-- Value of a digit list. -/
def digitsToNat (cs : List Char) : Nat :=
  cs.foldl (fun a c => a * 10 + (c.toNat - 48)) 0

/-- Parse an unsigned decimal literal (digits, optionally a dot and more
digits), the fragment of `Number(string)` the service can encounter. -/
def parseUnsigned (cs : List Char) : Option ℚ :=
  let ip := cs.takeWhile isDigitCh
  let rest := cs.dropWhile isDigitCh
  match rest with
  | [] => if ip.isEmpty then none else some (digitsToNat ip)
  | c :: fp =>
    if c = Char.ofNat 46 && fp.all isDigitCh && (!ip.isEmpty || !fp.isEmpty) then
      some ((digitsToNat ip : ℚ) + (digitsToNat fp : ℚ) / (10 ^ fp.length : ℚ))
    else none

/-- ASCII whitespace trimming, as `Number(string)` applies before
parsing. -/
def trimWs (s : String) : String :=
  String.mk (((s.toList.dropWhile Char.isWhitespace).reverse.dropWhile
    Char.isWhitespace).reverse)

/-- JavaScript `Number(string)`: `none` models `NaN` (and the non-finite
results, which the source treats identically through `Number.isFinite`). -/
def jsNumOfStr (s : String) : Option ℚ :=
  match (trimWs s).toList with
  | [] => some 0
  | c :: cs =>
    if c = Char.ofNat 45 then (parseUnsigned cs).map (fun q => -q)
    else if c = Char.ofNat 43 then parseUnsigned cs
    else parseUnsigned (c :: cs)

/-- Numeric coercion of a non-array value, the single-element case of
the array rule below. -/
def jsNumberLeaf : Json → Option ℚ
  | .null => some 0
  | .bool b => some (if b then 1 else 0)
  | .num q => some q
  | .str s => jsNumOfStr s
  | .arr _ => none
  | .obj _ => none

/-- JavaScript `Number(v)` coercion; `none` models a non-finite result.
A singleton array coerces through its element (nested singleton arrays,
which no probed field ever is, are abstracted to `NaN`). -/
def jsNumber : Json → Option ℚ
  | .arr [] => some 0
  | .arr [x] => jsNumberLeaf x
  | .arr (_ :: _ :: _) => none
  | v => jsNumberLeaf v

/-- Strict equality `v === p` between a value and a string literal. -/
def jsEqStr : Json → String → Bool
  | .str s, p => s == p
  | _, _ => false

/-- Strict equality between two values, on the primitives the source
actually compares (the reference identity of composite values is not
modelled; the compared VINs are primitives in every reachable run). -/
def jsStrictEq : Json → Json → Bool
  | .null, .null => true
  | .bool a, .bool b => a == b
  | .num a, .num b => a == b
  | .str a, .str b => a == b
  | _, _ => false

/-- Strict equality where the left operand may be `undefined`. -/
def jsStrictEqOpt : Option Json → Json → Bool
  | some a, b => jsStrictEq a b
  | none, _ => false

/-! The error values the service throws.  `HttpError` carries a message,
a status and the response body; everything else is a plain `Error` with a
message. -/

inductive JsErr where
  | http : String → Nat → Json → JsErr
  | generic : String → JsErr

/-- Message of an error, as `String(err?.message || err)` renders it in
the summary's per-field error descriptors. -/
def errMsg : JsErr → String
  | .http m _ _ => if m = "" then "HttpError" else m
  | .generic m => if m = "" then "Error" else m

/-- Message substring probes of `_is401`. -/
def msgHas401 (m : String) : Bool :=
  containsSub m "GET 401" || containsSub m "POST 401" ||
    containsSub m "HTTP 401" || containsSub m " 401"

/-- The `_is401(err)` classifier on a thrown error. -/
def is401e : JsErr → Bool
  | .http m st _ => st == 401 || msgHas401 m
  | .generic m => msgHas401 m

/-- The `_is401(err)` classifier as `getSummary` applies it, where the
argument may be `null` (a fulfilled sub-fetch). -/
def is401 : Option JsErr → Bool
  | some e => is401e e
  | none => false

/-! Parsers.  Each normalizes one resource response; `a` is the
defensively probed attribute object. -/

/-- Attribute extraction `r?.data?.attributes || r?.data || HHOBJ`
shared by all four parsers. -/
def attrsOf (r : Json) : Json :=
  jsOrD (jsOr (walkPath r ["data", "attributes"]) (getField r "data")) (.obj [])

/-- The numeric literal 0.9 of the charging-state heuristic, given in
lowest terms so that kernel evaluation of comparisons against it does not
pass through rational normalization. -/
def ratPoint9 : ℚ := ⟨9, 10, by norm_num, by norm_num⟩

structure BatteryData where
  batteryLevel : Json
  batteryAutonomyKm : Json
  plugStatus : Json
  chargingStatus : Json
  chargingRemainingTimeMin : Json
  chargingInstantaneousPower : Json
  isPlugged : Bool
  isCharging : Bool
  timestamp : Json

/-- The `parseBattery` normalizer. -/
def parseBattery (r : Json) : BatteryData :=
  let a := attrsOf r
  let plugStatus := (getField a "plugStatus").getD .null
  let chargingStatus := (getField a "chargingStatus").getD .null
  let remainMin := (getField a "chargingRemainingTime").getD .null
  let chargingPower := (getField a "chargingInstantaneousPower").getD .null
  let plugStr := strLower (jsToStrND plugStatus)
  let statusStr := strLower (jsToStrND chargingStatus)
  let plugNum := jsNumber plugStatus
  let statusNum := jsNumber chargingStatus
  let powerNum := jsNumber chargingPower
  let powerPositive :=
    match powerNum with
    | some q => decide (0 < q)
    | none => false
  let isPlugged :=
    plugNum == some 1 || plugStr == "plugged" || plugStr == "connected" ||
      plugStr == "true" || plugStr == "1"
  let statusSaysCharging :=
    containsSub statusStr "charging" || containsSub statusStr "in_progress" ||
      containsSub statusStr "progress"
  let statusNumSaysCharging :=
    match statusNum with
    | some q => decide (ratPoint9 ≤ q)
    | none => false
  let isCharging := powerPositive || statusSaysCharging || statusNumSaysCharging
  { batteryLevel := (getField a "batteryLevel").getD .null
    batteryAutonomyKm := (getField a "batteryAutonomy").getD .null
    plugStatus := plugStatus
    chargingStatus := chargingStatus
    chargingRemainingTimeMin := remainMin
    chargingInstantaneousPower := chargingPower
    isPlugged := isPlugged
    isCharging := isCharging
    timestamp := jsOrD (jsOr (getField a "timestamp") (getField a "lastUpdateTime")) .null }

structure CockpitData where
  totalMileageKm : Json
  fuelAutonomyKm : Json
  timestamp : Json

/-- Nullish chain `a ?? b` on possibly-absent fields. -/
def jsNullish (a b : Option Json) : Option Json :=
  match a with
  | some .null => b
  | none => b
  | some v => some v

/-- The `parseCockpit` normalizer. -/
def parseCockpit (r : Json) : CockpitData :=
  let a := attrsOf r
  { totalMileageKm :=
      (jsNullish (getField a "totalMileage") (getField a "totalMileageKm")).getD .null
    fuelAutonomyKm := (getField a "fuelAutonomy").getD .null
    timestamp := jsOrD (jsOr (getField a "timestamp") (getField a "lastUpdateTime")) .null }

structure HvacData where
  hvacStatus : Json
  externalTemperature : Json
  internalTemperature : Json
  lastUpdateTime : Json

/-- The `parseHvac` normalizer. -/
def parseHvac (r : Json) : HvacData :=
  let a := attrsOf r
  { hvacStatus := (jsNullish (getField a "hvacStatus") (getField a "status")).getD .null
    externalTemperature := (getField a "externalTemperature").getD .null
    internalTemperature := (getField a "internalTemperature").getD .null
    lastUpdateTime := jsOrD (jsOr (getField a "lastUpdateTime") (getField a "timestamp")) .null }

structure LocationData where
  latitude : Json
  longitude : Json
  heading : Json
  timestamp : Json

/-- The `parseLocation` normalizer. -/
def parseLocation (r : Json) : LocationData :=
  let a := attrsOf r
  { latitude :=
      (jsNullish (jsNullish (getField a "gpsLatitude") (getField a "latitude"))
        (getField a "lat")).getD .null
    longitude :=
      (jsNullish (jsNullish (getField a "gpsLongitude") (getField a "longitude"))
        (getField a "lng")).getD .null
    heading := (getField a "heading").getD .null
    timestamp := jsOrD (jsOr (getField a "timestamp") (getField a "lastUpdateTime")) .null }

/-! The mutable state of a `RenaultService` instance and the network
oracle.  A run consumes outcomes from the oracle list in the order the
service issues requests; the request log makes the calls observable. -/

structure Ctx where
  gigyaCookie : String
  personId : String
  idToken : String
  accountId : String
  vin : Json

structure Meta where
  vin : Json
  model : Json
  brand : Json
  pictureUrl : Json
  rawModelName : Json
  rawCommercialName : Json

inductive FRes (α : Type) where
  | ok : α → FRes α
  | err : String → FRes α

/-- The composite payload `getSummary` assembles. -/
structure Summary where
  vin : Json
  model : Json
  brand : Json
  pictureUrl : Json
  battery : FRes BatteryData
  cockpit : FRes CockpitData
  hvac : FRes HvacData
  location : FRes LocationData

/-- The instance fields `this.ctx`, `this.vehicleMeta`, `this.cache` and
the in-flight re-login marker `this._reloginPromise` (as a flag: the
promise identity is irrelevant in a sequential run). -/
structure W where
  ctx : Option Ctx
  vehicleMeta : Option Meta
  cacheAt : Int
  cacheData : Option Summary
  reloginBusy : Bool

/-- Requests the service can issue, identified by the data that
distinguishes them (transport-level URL decoration and headers are
deterministic functions of these). -/
inductive NetReq where
  | gigyaLoginReq : NetReq
  | accountInfoReq : String → NetReq
  | getJwtReq : String → NetReq
  | kamGet : String → String → NetReq
  | kamPost : String → String → NetReq
deriving DecidableEq

/-- Outcome of one network call: an HTTP response with a JSON body, an
HTTP response with an empty body text, or a transport-level rejection. -/
inductive NetOutcome where
  | resp : Nat → Json → NetOutcome
  | respEmpty : Nat → NetOutcome
  | netFail : String → NetOutcome

/-- Result of running one operation: its value or thrown error, the state
after it, the unconsumed oracle suffix, and the requests it issued.
`none` at the `Option` layer models divergence (oracle exhausted, fuel
exhausted, or awaiting the own in-flight re-login promise). -/
structure Out (α : Type) where
  res : Except JsErr α
  st : W
  net : List NetOutcome
  log : List NetReq

/-- Sequencing that short-circuits on a thrown error and accumulates the
request log. -/
def Out.andThen (o : Out α) (f : α → W → List NetOutcome → Option (Out β)) :
    Option (Out β) :=
  match o.res with
  | .error e => some ⟨.error e, o.st, o.net, o.log⟩
  | .ok a =>
    match f a o.st o.net with
    | none => none
    | some o2 => some ⟨o2.res, o2.st, o2.net, o.log ++ o2.log⟩

def mbind (x : Option (Out α)) (f : α → W → List NetOutcome → Option (Out β)) :
    Option (Out β) :=
  match x with
  | none => none
  | some o => o.andThen f

def mthrow (msg : String) : W → List NetOutcome → Option (Out α) :=
  fun s net => some ⟨.error (.generic msg), s, net, []⟩

/-- The `res.ok` predicate of the fetch API. -/
def resOk (status : Nat) : Bool := 200 ≤ status && status ≤ 299

/-- One `doFetch` attempt of `kamereonGet`: non-ok statuses become an
`HttpError` whose message embeds the status, an empty ok body parses to
`null`. -/
def kamGetFetchRes (o : NetOutcome) : Except JsErr Json :=
  match o with
  | .netFail m => .error (.generic m)
  | .resp status body =>
    if resOk status then .ok body
    else .error (.http ("Kamereon GET " ++ toString status) status body)
  | .respEmpty status =>
    if resOk status then .ok .null
    else .error (.http ("Kamereon GET " ++ toString status) status .null)

/-- One `doFetch` attempt of `kamereonPost`; an empty ok body yields the
literal `{ ok: true }`. -/
def kamPostFetchRes (o : NetOutcome) : Except JsErr Json :=
  match o with
  | .netFail m => .error (.generic m)
  | .resp status body =>
    if resOk status then .ok body
    else .error (.http ("Kamereon POST " ++ toString status) status body)
  | .respEmpty status =>
    if resOk status then .ok (.obj [("ok", .bool true)])
    else .error (.http ("Kamereon POST " ++ toString status) status .null)

/-- First truthy value at the given pick paths rendered as a string, else
the fallback — the `pick(...) || fallback` message pattern. -/
def pickMsg (j : Json) (paths : List String) (fb : String) : String :=
  match pick j paths with
  | some v => if truthy v then jsToStr v else fb
  | none => fb

/-- The optional `(code …) ` fragment of the Gigya login error message. -/
def gigyaCodePart (j : Json) : String :=
  match pick j ["errorCode"] with
  | some v => if truthy v then "(code " ++ jsToStr v ++ ") " else ""
  | none => ""

/-- Error message `gigyaLogin` composes when the response lacks a session
cookie. -/
def gigyaLoginMsg (j : Json) (status : Nat) : String :=
  "Gigya login failed " ++ gigyaCodePart j ++ ": " ++
    pickMsg j ["errorMessage", "errorDetails", "error_description"]
      ("Gigya login failed (HTTP " ++ toString status ++ ")")

/-- The `gigyaLogin` step: extracts `sessionInfo.cookieValue` or throws.
A malformed or empty body is the `res.json().catch(() => ({}))` object. -/
def gigyaLoginStep (s : W) (net : List NetOutcome) : Option (Out String) :=
  match net with
  | [] => none
  | o :: rest =>
    let lg := [NetReq.gigyaLoginReq]
    match o with
    | .netFail m => some ⟨.error (.generic m), s, rest, lg⟩
    | .respEmpty status =>
      some ⟨.error (.generic (gigyaLoginMsg (.obj []) status)), s, rest, lg⟩
    | .resp status body =>
      match pick body ["sessionInfo.cookieValue"] with
      | some v => some ⟨.ok (jsToStr v), s, rest, lg⟩
      | none => some ⟨.error (.generic (gigyaLoginMsg body status)), s, rest, lg⟩

/-- The `gigyaGetAccountInfo` step: extracts the person identifier. -/
def gigyaAccountInfoStep (cookie : String) (s : W) (net : List NetOutcome) :
    Option (Out String) :=
  match net with
  | [] => none
  | o :: rest =>
    let lg := [NetReq.accountInfoReq cookie]
    match o with
    | .netFail m => some ⟨.error (.generic m), s, rest, lg⟩
    | .respEmpty _ =>
      some ⟨.error (.generic "Gigya getAccountInfo failed"), s, rest, lg⟩
    | .resp _ body =>
      match pick body ["data.personId", "data.personID"] with
      | some v => some ⟨.ok (jsToStr v), s, rest, lg⟩
      | none =>
        some ⟨.error (.generic
          (pickMsg body ["errorMessage", "errorDetails"] "Gigya getAccountInfo failed")),
          s, rest, lg⟩

/-- The `gigyaGetJwt` step: exchanges the cookie for a short-lived
identity token. -/
def gigyaGetJwtStep (cookie : String) (s : W) (net : List NetOutcome) :
    Option (Out String) :=
  match net with
  | [] => none
  | o :: rest =>
    let lg := [NetReq.getJwtReq cookie]
    match o with
    | .netFail m => some ⟨.error (.generic m), s, rest, lg⟩
    | .respEmpty _ => some ⟨.error (.generic "Gigya getJWT failed"), s, rest, lg⟩
    | .resp _ body =>
      match pick body ["id_token", "idToken"] with
      | some v => some ⟨.ok (jsToStr v), s, rest, lg⟩
      | none =>
        some ⟨.error (.generic
          (pickMsg body ["errorMessage", "errorDetails"] "Gigya getJWT failed")),
          s, rest, lg⟩

/-- The `kamereonGet` body, with its collaborators `this._reloginLocked`
and `this.ensureContext` abstracted as parameters: one attempt with the
given token; on a 401-classified failure, the shared re-login, a fresh
context, and exactly one retry whose outcome propagates unmodified. -/
def kamereonGetG (relogin : W → List NetOutcome → Option (Out Unit))
    (ensure : W → List NetOutcome → Option (Out Ctx))
    (path tok : String) (s : W) (net : List NetOutcome) : Option (Out Json) :=
  match net with
  | [] => none
  | o :: rest =>
    let lg := [NetReq.kamGet path tok]
    match kamGetFetchRes o with
    | .ok j => some ⟨.ok j, s, rest, lg⟩
    | .error e =>
      if !is401e e then some ⟨.error e, s, rest, lg⟩
      else
        match relogin s rest with
        | none => none
        | some ro =>
          match ro.res with
          | .error re => some ⟨.error re, ro.st, ro.net, lg ++ ro.log⟩
          | .ok _ =>
            match ensure ro.st ro.net with
            | none => none
            | some eo =>
              match eo.res with
              | .error ee => some ⟨.error ee, eo.st, eo.net, lg ++ ro.log ++ eo.log⟩
              | .ok c =>
                match eo.net with
                | [] => none
                | o2 :: rest2 =>
                  let lg2 := lg ++ ro.log ++ eo.log ++ [NetReq.kamGet path c.idToken]
                  match kamGetFetchRes o2 with
                  | .ok j2 => some ⟨.ok j2, eo.st, rest2, lg2⟩
                  | .error e2 => some ⟨.error e2, eo.st, rest2, lg2⟩

/-- The `kamereonPost` body, same recovery discipline as `kamereonGetG`. -/
def kamereonPostG (relogin : W → List NetOutcome → Option (Out Unit))
    (ensure : W → List NetOutcome → Option (Out Ctx))
    (path tok : String) (payload : Json) (s : W) (net : List NetOutcome) :
    Option (Out Json) :=
  match net with
  | [] => none
  | o :: rest =>
    let _ := payload
    let lg := [NetReq.kamPost path tok]
    match kamPostFetchRes o with
    | .ok j => some ⟨.ok j, s, rest, lg⟩
    | .error e =>
      if !is401e e then some ⟨.error e, s, rest, lg⟩
      else
        match relogin s rest with
        | none => none
        | some ro =>
          match ro.res with
          | .error re => some ⟨.error re, ro.st, ro.net, lg ++ ro.log⟩
          | .ok _ =>
            match ensure ro.st ro.net with
            | none => none
            | some eo =>
              match eo.res with
              | .error ee => some ⟨.error ee, eo.st, eo.net, lg ++ ro.log ++ eo.log⟩
              | .ok c =>
                match eo.net with
                | [] => none
                | o2 :: rest2 =>
                  let lg2 := lg ++ ro.log ++ eo.log ++ [NetReq.kamPost path c.idToken]
                  match kamPostFetchRes o2 with
                  | .ok j2 => some ⟨.ok j2, eo.st, rest2, lg2⟩
                  | .error e2 => some ⟨.error e2, eo.st, rest2, lg2⟩

/-- The `_invalidateContext` helper: context, vehicle metadata and the
snapshot cache are dropped together. -/
def invalidateContext (s : W) : W :=
  { s with ctx := none, vehicleMeta := none, cacheAt := 0, cacheData := none }

/-- The `_reloginLocked` body over an abstract `ensureContext(true)`.  In
a sequential run an already-set marker means the caller would await its
own promise, which never settles: divergence.  The marker is cleared when
the attempt settles, in success and in failure alike. -/
def reloginG (ensureForce : W → List NetOutcome → Option (Out Ctx))
    (s : W) (net : List NetOutcome) : Option (Out Unit) :=
  if s.reloginBusy then none
  else
    match ensureForce (invalidateContext { s with reloginBusy := true }) net with
    | none => none
    | some o =>
      some ⟨o.res.map (fun _ => ()), { o.st with reloginBusy := false }, o.net, o.log⟩

/-- The `v?.vin || v?.vehicleDetails?.vin || v?.attributes?.vin` chain of
the vehicle-list extraction. -/
def vinChain (v : Json) : Option Json :=
  jsOr (jsOr (getField v "vin") (walkPath v ["vehicleDetails", "vin"]))
    (walkPath v ["attributes", "vin"])

/-- The `links.map(…).filter(Boolean)` VIN extraction. -/
def vinsOfLinks (links : List Json) : List Json :=
  links.filterMap (fun v =>
    match vinChain v with
    | some x => if truthy x then some x else none
    | none => none)

/-- The VIN selection: the preferred VIN when it is truthy and present in
the list, else the first vehicle. -/
def selectVin (pv : Option String) (vins : List Json) : Json :=
  match pv with
  | some p =>
    if p != "" && vins.any (fun x => jsEqStr x p) then .str p
    else vins.headD .null
  | none => vins.headD .null

/-- The `_extractVehicleMetaFromLink` probing of the selected vehicle
entry. -/
def extractVehicleMetaFromLink (v : Json) : Meta :=
  let vd := jsOrD (jsOr (jsOr (getField v "vehicleDetails")
      (walkPath v ["attributes", "vehicleDetails"]))
      (walkPath v ["data", "attributes", "vehicleDetails"])) (.obj [])
  { vin := jsOrD (jsOr (getField v "vin") (getField vd "vin")) .null
    model := jsOrD (jsOr (jsOr (jsOr (getField vd "modelName") (getField vd "model"))
      (getField vd "commercialName")) (getField v "modelName")) .null
    brand := jsOrD (jsOr (getField vd "brand") (getField vd "make")) .null
    pictureUrl := jsOrD (jsOr (jsOr (jsOr (jsOr (jsOr (getField vd "pictureURL")
      (getField vd "pictureUrl")) (getField vd "vehiclePictureUrl"))
      (getField vd "vehiclePictureURL")) (getField v "pictureURL"))
      (getField v "pictureUrl")) .null
    rawModelName := jsOrD (getField vd "modelName") .null
    rawCommercialName := jsOrD (getField vd "commercialName") .null }

/-- Truthiness of the fast-path test on a stored context. -/
def ctxReady (c : Ctx) : Bool :=
  c.idToken != "" && c.accountId != "" && truthy c.vin

/-- The `person?.accounts || person?.data?.attributes?.accounts || []`
probe. -/
def accountsOf (person : Json) : Json :=
  jsOrD (jsOr (getField person "accounts")
    (walkPath person ["data", "attributes", "accounts"])) (.arr [])

/-- The account selection: first entry whose probed accountType is
strictly equal to "MYRENAULT", else the first entry. -/
def selectAccount (accounts : List Json) : Json :=
  jsOrD (accounts.find? (fun a =>
    jsStrictEqOpt (jsOr (getField a "accountType")
      (walkPath a ["attributes", "accountType"])) (.str "MYRENAULT")))
    (accounts.headD .null)

/-- The `my.accountId || my?.attributes?.accountId` probe. -/
def accountIdOf (my : Json) : Option Json :=
  jsOr (getField my "accountId") (walkPath my ["attributes", "accountId"])

/-- The `vehicles?.vehicleLinks || vehicles?.data?.vehicleLinks ||
vehicles?.data || []` probe. -/
def linksOf (vehicles : Json) : Json :=
  jsOrD (jsOr (jsOr (getField vehicles "vehicleLinks")
    (walkPath vehicles ["data", "vehicleLinks"])) (getField vehicles "data")) (.arr [])

/-- The bootstrap branch of `ensureContext`: credential exchange, account
lookup, vehicle lookup, VIN selection, metadata extraction, and
publication of the new context.  The Kamereon GET capability (with its
re-login recovery at the enclosing fuel) is passed in by `ensureContext`. -/
def ensureBoot (kg : String → String → W → List NetOutcome → Option (Out Json))
    (pv : Option String) (s : W) (net : List NetOutcome) : Option (Out Ctx) :=
  mbind (gigyaLoginStep s net) (fun cookie s net =>
  mbind (gigyaAccountInfoStep cookie s net) (fun personId s net =>
  mbind (gigyaGetJwtStep cookie s net) (fun idToken s net =>
  mbind (kg ("/commerce/v1/persons/" ++ personId) idToken s net) (fun person s net =>
    match accountsOf person with
    | .arr accounts =>
      if accounts.isEmpty then
        mthrow "No accounts found in Kamereon person response" s net
      else
        let accountIdV := accountIdOf (selectAccount accounts)
        if !truthyOpt accountIdV then mthrow "Could not determine accountId" s net
        else
          let accountId := jsToStr (accountIdV.getD .null)
          mbind (kg ("/commerce/v1/accounts/" ++ accountId ++ "/vehicles") idToken s net)
            (fun vehicles s net =>
            match linksOf vehicles with
            | .arr links =>
              let vins := vinsOfLinks links
              if vins.isEmpty then mthrow "No vehicles found for this account" s net
              else
                let vin := selectVin pv vins
                let selectedLink := jsOrD (links.find? (fun v =>
                    jsStrictEqOpt (vinChain v) vin)) (links.headD .null)
                let meta := { extractVehicleMetaFromLink selectedLink with vin := vin }
                let c : Ctx := ⟨cookie, personId, idToken, accountId, vin⟩
                some ⟨.ok c, { s with vehicleMeta := some meta, ctx := some c }, net, []⟩
            | _ => mthrow "TypeError: links.map is not a function" s net)
    | .str _ => mthrow "TypeError: accounts.find is not a function" s net
    | _ => mthrow "No accounts found in Kamereon person response" s net))))

/-- The `ensureContext(force)` operation: fast path when a complete
context exists and the call is not forced, else the bootstrap.  The fuel
bounds the depth of re-login recursion that the bootstrap's own Kamereon
GETs may trigger. -/
def ensureContext (pv : Option String) : Nat → Bool → W → List NetOutcome → Option (Out Ctx)
  | 0, _, _, _ => none
  | Nat.succ n, force, s, net =>
    let kg := fun (path tok : String) =>
      kamereonGetG (reloginG (fun s2 net2 => ensureContext pv n true s2 net2))
        (fun s2 net2 => ensureContext pv n false s2 net2) path tok
    match s.ctx with
    | some c =>
      if !force && ctxReady c then some ⟨.ok c, s, net, []⟩
      else ensureBoot kg pv s net
    | none => ensureBoot kg pv s net

/-- The service's `kamereonGet` with its collaborators tied: the shared
single-flight re-login and the non-forced context read. -/
def kamereonGet (pv : Option String) (fuel : Nat) (path tok : String) :
    W → List NetOutcome → Option (Out Json) :=
  kamereonGetG (reloginG (ensureContext pv fuel true)) (ensureContext pv fuel false) path tok

/-- The service's `kamereonPost` with its collaborators tied. -/
def kamereonPost (pv : Option String) (fuel : Nat) (path tok : String) (payload : Json) :
    W → List NetOutcome → Option (Out Json) :=
  kamereonPostG (reloginG (ensureContext pv fuel true)) (ensureContext pv fuel false)
    path tok payload

/-- The service's `_reloginLocked` with `ensureContext(true)` tied. -/
def reloginLocked (pv : Option String) (fuel : Nat) :
    W → List NetOutcome → Option (Out Unit) :=
  reloginG (ensureContext pv fuel true)

/-- The snapshot TTL, `TTL_MS = 25_000`. -/
def TTL_MS : Int := 25000

/-- The battery-status URL built by the external renault-api package; its
exact text only serves as request identity. -/
def READ_BATTERY_STATUS_URL (accountId vin : String) : String :=
  "https://api-wired-prod-1-euw1.wrd-aws.com/commerce/v1/accounts/" ++ accountId ++
    "/kamereon/kca/car-adapter/v2/cars/" ++ vin ++ "/battery-status"

/-- The car-adapter paths `getSummary` and the actions interpolate. -/
def carPath (accountId vin suffix : String) : String :=
  "/commerce/v1/accounts/" ++ accountId ++ "/kamereon/kca/car-adapter/v1/cars/" ++
    vin ++ "/" ++ suffix

/-- The `this.vehicleMeta?.field || null` probes of the summary header. -/
def metaField (m : Option Meta) (f : Meta → Json) : Json :=
  match m with
  | some mm => if truthy (f mm) then f mm else .null
  | none => .null

/-- The rejection reason of a settled sub-fetch, `null` when fulfilled. -/
def errOf : Except JsErr α → Option JsErr
  | .ok _ => none
  | .error e => some e

/-- Per-field assembly: a fulfilled sub-fetch is parsed, a rejected one
becomes the `{ error }` descriptor. -/
def fRes (p : Json → α) : Except JsErr Json → FRes α
  | .ok v => .ok (p v)
  | .error e => .err (errMsg e)

/-- The cache-miss branch of `getSummary`: one shared context resolution,
the four-way fan-out with per-resource settlement, assembly, and the
authorization-coupled cache decision. -/
def getSummaryMiss (pv : Option String) (fuel : Nat) (nowMs : Int) (s : W)
    (net : List NetOutcome) : Option (Out Summary) :=
  mbind (ensureContext pv fuel false s net) (fun c s net =>
    let kg := fun (path tok : String) =>
      kamereonGetG (reloginG (ensureContext pv fuel true)) (ensureContext pv fuel false)
        path tok
    let vinStr := jsToStr c.vin
    match kg (READ_BATTERY_STATUS_URL c.accountId vinStr) c.idToken s net with
    | none => none
    | some ob =>
    match kg (carPath c.accountId vinStr "cockpit") c.idToken ob.st ob.net with
    | none => none
    | some oc =>
    match kg (carPath c.accountId vinStr "hvac-status") c.idToken oc.st oc.net with
    | none => none
    | some oh =>
    match kg (carPath c.accountId vinStr "location") c.idToken oh.st oh.net with
    | none => none
    | some ol =>
      let has401v := is401 (errOf ob.res) || is401 (errOf oc.res) ||
        is401 (errOf oh.res) || is401 (errOf ol.res)
      let data : Summary :=
        { vin := c.vin
          model := metaField ol.st.vehicleMeta Meta.model
          brand := metaField ol.st.vehicleMeta Meta.brand
          pictureUrl := metaField ol.st.vehicleMeta Meta.pictureUrl
          battery := fRes parseBattery ob.res
          cockpit := fRes parseCockpit oc.res
          hvac := fRes parseHvac oh.res
          location := fRes parseLocation ol.res }
      let st2 :=
        if !has401v then { ol.st with cacheAt := nowMs, cacheData := some data }
        else { ol.st with cacheAt := 0, cacheData := none }
      some ⟨.ok data, st2, ol.net, ob.log ++ oc.log ++ oh.log ++ ol.log⟩)

/-- The `getSummary` operation: the cached payload while it is younger
than the TTL, else the full fan-out. -/
def getSummary (pv : Option String) (fuel : Nat) (nowMs : Int) (s : W)
    (net : List NetOutcome) : Option (Out Summary) :=
  match s.cacheData with
  | some d =>
    if nowMs - s.cacheAt < TTL_MS then some ⟨.ok d, s, net, []⟩
    else getSummaryMiss pv fuel nowMs s net
  | none => getSummaryMiss pv fuel nowMs s net

/-- The `startHvac({temperature})` action.  The cache clear follows the
awaited send, so it runs only when the send did not throw. -/
def startHvac (pv : Option String) (fuel : Nat) (temperature : ℚ) (s : W)
    (net : List NetOutcome) : Option (Out Json) :=
  mbind (ensureContext pv fuel false s net) (fun c s net =>
    let payload : Json := .obj [("data", .obj [("type", .str "HvacStart"),
      ("attributes", .obj [("action", .str "start"),
        ("targetTemperature", .num temperature)])])]
    match kamereonPost pv fuel (carPath c.accountId (jsToStr c.vin) "actions/hvac-start")
        c.idToken payload s net with
    | none => none
    | some o =>
      match o.res with
      | .error e => some ⟨.error e, o.st, o.net, o.log⟩
      | .ok out => some ⟨.ok out, { o.st with cacheAt := 0, cacheData := none }, o.net, o.log⟩)

/-- The `stopHvac()` action, same shape with the cancel payload. -/
def stopHvac (pv : Option String) (fuel : Nat) (s : W) (net : List NetOutcome) :
    Option (Out Json) :=
  mbind (ensureContext pv fuel false s net) (fun c s net =>
    let payload : Json := .obj [("data", .obj [("type", .str "HvacStart"),
      ("attributes", .obj [("action", .str "cancel")])])]
    match kamereonPost pv fuel (carPath c.accountId (jsToStr c.vin) "actions/hvac-start")
        c.idToken payload s net with
    | none => none
    | some o =>
      match o.res with
      | .error e => some ⟨.error e, o.st, o.net, o.log⟩
      | .ok out => some ⟨.ok out, { o.st with cacheAt := 0, cacheData := none }, o.net, o.log⟩)

/-! Single-flight re-login lock, as an interleaving machine.  The
sequential embedding above cannot express concurrent callers; this
machine models lines 139-152 directly: a call while no attempt is in
flight claims the marker and starts a credential exchange, a call while
one is in flight joins it, and the completion of the attempt delivers the
one outcome to every joined caller and clears the marker whether the
attempt succeeded or failed. -/

inductive LockEv where
  | call : Nat → LockEv
  | complete : Bool → LockEv

structure LockSt where
  inFlight : Bool
  waiters : List Nat
  exchanges : Nat
  outcomes : List (Nat × Bool)

def lockInit : LockSt := ⟨false, [], 0, []⟩

def lockStep (s : LockSt) : LockEv → LockSt
  | .call c =>
    if s.inFlight then { s with waiters := s.waiters ++ [c] }
    else { inFlight := true, waiters := [c], exchanges := s.exchanges + 1,
           outcomes := s.outcomes }
  | .complete o =>
    { inFlight := false, waiters := [], exchanges := s.exchanges,
      outcomes := s.outcomes ++ s.waiters.map (fun c => (c, o)) }

def lockRun (s : LockSt) (evs : List LockEv) : LockSt := evs.foldl lockStep s

/-! Character-level facts about number rendering, needed to settle the
charging-state heuristic for an arbitrary numeric status code: the
stringification of a number never contains the alphabetic markers the
heuristic probes for. -/

/-- Characters a rendered number can contain. -/
def numChar (c : Char) : Bool :=
  isDigitCh c || c == '-' || c == '.' || c == '?'

theorem natDigitsAux_all (fuel : Nat) : ∀ (n : Nat) (acc : List Char),
    acc.all isDigitCh = true → (natDigitsAux fuel n acc).all isDigitCh = true := by
  induction fuel with
  | zero => intro n acc hacc; simpa [natDigitsAux] using hacc
  | succ fuel ih =>
    intro n acc hacc
    rw [natDigitsAux]
    split
    · rename_i h
      simp only [List.all_cons, hacc, Bool.and_true]
      interval_cases n <;> decide
    · rename_i h
      apply ih
      simp only [List.all_cons, hacc, Bool.and_true]
      have h4 : n % 10 < 10 := Nat.mod_lt _ (by omega)
      generalize n % 10 = m at h4
      interval_cases m <;> decide

theorem natDigits_all_digits (n : Nat) : (natDigits n).all isDigitCh = true :=
  natDigitsAux_all (n + 1) n [] rfl

theorem all_digit_numChar (l : List Char) (h : l.all isDigitCh = true) :
    l.all numChar = true := by
  simp only [List.all_eq_true] at h ⊢
  intro c hc
  have hd := h c hc
  simp [numChar, hd]

theorem toList_append (a b : String) : (a ++ b).toList = a.toList ++ b.toList :=
  String.data_append a b

theorem numStr_all (q : ℚ) : (numStr q).toList.all numChar = true := by
  have hsign : (if q < 0 then "-" else "").toList.all numChar = true := by
    split <;> decide
  have hdig : ∀ m : Nat, (String.mk (natDigits m)).toList.all numChar = true := by
    intro m
    exact all_digit_numChar _ (natDigits_all_digits m)
  rw [numStr]
  cases hd : decExp q.den with
  | none =>
    simp only [toList_append, List.all_append, hsign, hdig, Bool.true_and]
    decide
  | some k =>
    cases k with
    | zero =>
      simp only [toList_append, List.all_append, hsign, hdig, Bool.true_and, Bool.and_true]
    | succ k =>
      simp only [toList_append, List.all_append, hsign, hdig, Bool.true_and, Bool.and_true]
      rw [Bool.and_eq_true]
      constructor
      · decide
      · have hrep : (List.replicate (k + 1 - (natDigits (q.num.natAbs *
            (10 ^ (k + 1) / q.den) % 10 ^ (k + 1))).length) (Char.ofNat 48)).all numChar = true := by
          simp only [List.all_eq_true]
          intro c hc
          have := List.eq_of_mem_replicate hc
          subst this
          decide
        have hfp := all_digit_numChar _ (natDigits_all_digits
          (q.num.natAbs * (10 ^ (k + 1) / q.den) % 10 ^ (k + 1)))
        show (List.replicate _ _ ++ natDigits _).all numChar = true
        simp only [List.all_append, hrep, hfp, Bool.and_self]

theorem toLower_numChar (c : Char) (h : numChar c = true) : c.toLower = c := by
  have hlt : c.toNat < 65 := by
    simp only [numChar, isDigitCh, Bool.or_eq_true, Bool.and_eq_true, decide_eq_true_eq,
      beq_iff_eq] at h
    rcases h with ((⟨h1, h2⟩ | h3) | h4) | h5
    · omega
    · subst h3; decide
    · subst h4; decide
    · subst h5; decide
  simp only [Char.toLower]
  rw [if_neg]
  omega

theorem strLower_numStr_all (q : ℚ) :
    (strLower (numStr q)).toList.all numChar = true := by
  have h := numStr_all q
  simp only [List.all_eq_true] at h
  simp only [strLower]
  show ((numStr q).toList.map Char.toLower).all numChar = true
  simp only [List.all_map, List.all_eq_true, Function.comp]
  intro c hc
  rw [toLower_numChar c (h c hc)]
  exact h c hc

theorem numStr_no_alpha (q : ℚ) (pat : String) (c : Char) (hc : c ∈ pat.toList)
    (hnc : numChar c = false) : containsSub (strLower (numStr q)) pat = false := by
  by_contra hcon
  have htrue : containsSub (strLower (numStr q)) pat = true := by
    cases hb : containsSub (strLower (numStr q)) pat
    · exact absurd hb hcon
    · rfl
  have hinf : pat.toList <:+: (strLower (numStr q)).toList := by
    simpa [containsSub] using htrue
  have hmem : c ∈ (strLower (numStr q)).toList := hinf.subset hc
  have hall := strLower_numStr_all q
  simp only [List.all_eq_true] at hall
  have := hall c hmem
  rw [hnc] at this
  exact Bool.false_ne_true this

theorem ratPoint9_eq : ratPoint9 = (9 : ℚ) / 10 := by
  rw [ratPoint9, Rat.mk'_eq_divInt]
  norm_num [Rat.divInt_eq_div]

theorem parseBattery_num_status (q : ℚ) :
    (parseBattery (.obj [("data", .obj [("attributes",
      .obj [("chargingStatus", .num q)])])])).isCharging = decide ((9 : ℚ) / 10 ≤ q) := by
  have h0 : jsToStr (Json.num q) = numStr q := rfl
  have h1 : containsSub (strLower (numStr q)) "charging" = false :=
    numStr_no_alpha q "charging" 'c' (by decide) (by decide)
  have h2 : containsSub (strLower (numStr q)) "in_progress" = false :=
    numStr_no_alpha q "in_progress" 'i' (by decide) (by decide)
  have h3 : containsSub (strLower (numStr q)) "progress" = false :=
    numStr_no_alpha q "progress" 'p' (by decide) (by decide)
  simp only [parseBattery, attrsOf, walkPath, getField, jsOr, jsOrD, truthy, truthyOpt,
    jsToStrND, jsNumber, jsNumberLeaf, List.find?, Option.getD, Option.map]
  simp [h0, h1, h2, h3, ratPoint9_eq]

theorem parseBattery_num_power (q : ℚ) :
    (parseBattery (.obj [("data", .obj [("attributes",
      .obj [("chargingInstantaneousPower", .num q)])])])).isCharging = decide (0 < q) := by
  have hc1 : containsSub (strLower "") "charging" = false := by decide
  have hc2 : containsSub (strLower "") "in_progress" = false := by decide
  have hc3 : containsSub (strLower "") "progress" = false := by decide
  have hq : decide (ratPoint9 ≤ (0 : ℚ)) = false := by decide
  simp only [parseBattery, attrsOf, walkPath, getField, jsOr, jsOrD, truthy, truthyOpt,
    jsToStrND, jsNumber, jsNumberLeaf, List.find?, Option.getD, Option.map]
  simp [hc1, hc2, hc3, hq]

/-! Fast-path lemma for `ensureContext`: a complete stored context is
returned as-is without consuming the oracle. -/

theorem ensure_fast (pv : Option String) (n : Nat) (s : W) (net : List NetOutcome)
    (c : Ctx) (hc : s.ctx = some c) (hr : ctxReady c = true) :
    ensureContext pv (n + 1) false s net = some ⟨.ok c, s, net, []⟩ := by
  rw [ensureContext]
  rw [hc]
  simp [hr]

/-! Shared step lemmas: a Kamereon call whose first attempt settles
without an authorization-classified failure consumes exactly one oracle
outcome, issues exactly one request, and returns that attempt's result
unchanged. -/

theorem kamGetG_no401 (relogin : W → List NetOutcome → Option (Out Unit))
    (ensure : W → List NetOutcome → Option (Out Ctx)) (path tok : String) (s : W)
    (o : NetOutcome) (rest : List NetOutcome)
    (h : is401 (errOf (kamGetFetchRes o)) = false) :
    kamereonGetG relogin ensure path tok s (o :: rest) =
      some ⟨kamGetFetchRes o, s, rest, [.kamGet path tok]⟩ := by
  simp only [kamereonGetG]
  cases hr : kamGetFetchRes o with
  | ok j => rfl
  | error e =>
    rw [hr] at h
    simp only [errOf, is401] at h
    simp [h]

theorem kamPostG_no401 (relogin : W → List NetOutcome → Option (Out Unit))
    (ensure : W → List NetOutcome → Option (Out Ctx)) (path tok : String)
    (payload : Json) (s : W) (o : NetOutcome) (rest : List NetOutcome)
    (h : is401 (errOf (kamPostFetchRes o)) = false) :
    kamereonPostG relogin ensure path tok payload s (o :: rest) =
      some ⟨kamPostFetchRes o, s, rest, [.kamPost path tok]⟩ := by
  simp only [kamereonPostG]
  cases hr : kamPostFetchRes o with
  | ok j => rfl
  | error e =>
    rw [hr] at h
    simp only [errOf, is401] at h
    simp [h]

theorem kamGetFetchRes_200 (b : Json) : kamGetFetchRes (.resp 200 b) = .ok b := rfl

/-! Concrete Gigya and directory responses shared by the scenario
theorems: a successful credential exchange producing cookie "ck", person
"p1", token "t1", account "acc1". -/

def loginBody : Json := .obj [("sessionInfo", .obj [("cookieValue", .str "ck")])]

def acctBody : Json := .obj [("data", .obj [("personId", .str "p1")])]

def jwtBody : Json := .obj [("id_token", .str "t1")]

def account1 : Json :=
  .obj [("accountType", .str "MYRENAULT"), ("accountId", .str "acc1")]

def personBody : Json := .obj [("accounts", .arr [account1])]

def mkVinLink (v : String) : Json := .obj [("vin", .str v)]

def vehiclesBodyFor (l : List String) : Json :=
  .obj [("vehicleLinks", .arr (l.map mkVinLink))]

/-- The oracle prefix of a successful context bootstrap resolving the
vehicle list `l`. -/
def bootNetFor (l : List String) : List NetOutcome :=
  [.resp 200 loginBody, .resp 200 acctBody, .resp 200 jwtBody, .resp 200 personBody,
   .resp 200 (vehiclesBodyFor l)]

theorem gigyaLoginStep_ck (s : W) (rest : List NetOutcome) :
    gigyaLoginStep s (.resp 200 loginBody :: rest) =
      some ⟨.ok "ck", s, rest, [.gigyaLoginReq]⟩ := rfl

theorem gigyaAccountInfoStep_p1 (s : W) (rest : List NetOutcome) :
    gigyaAccountInfoStep "ck" s (.resp 200 acctBody :: rest) =
      some ⟨.ok "p1", s, rest, [.accountInfoReq "ck"]⟩ := rfl

theorem gigyaGetJwtStep_t1 (s : W) (rest : List NetOutcome) :
    gigyaGetJwtStep "ck" s (.resp 200 jwtBody :: rest) =
      some ⟨.ok "t1", s, rest, [.getJwtReq "ck"]⟩ := rfl

theorem kamGetG_resp200 (relogin : W → List NetOutcome → Option (Out Unit))
    (ensure : W → List NetOutcome → Option (Out Ctx)) (path tok : String) (s : W)
    (b : Json) (rest : List NetOutcome) :
    kamereonGetG relogin ensure path tok s (.resp 200 b :: rest) =
      some ⟨.ok b, s, rest, [.kamGet path tok]⟩ := rfl

theorem vinChain_mk (v : String) (hv : v ≠ "") :
    vinChain (mkVinLink v) = some (.str v) := by
  simp only [vinChain, mkVinLink, getField, walkPath, List.find?, jsOr, truthyOpt, truthy]
  simp [hv]

theorem vinsOfLinks_map (l : List String) (h : ∀ v ∈ l, v ≠ "") :
    vinsOfLinks (l.map mkVinLink) = l.map Json.str := by
  induction l with
  | nil => rfl
  | cons v t ih =>
    have hv : v ≠ "" := h v (by simp)
    have ht : ∀ x ∈ t, x ≠ "" := fun x hx => h x (by simp [hx])
    have htv : truthy (Json.str v) = true := by simp [truthy, hv]
    simp only [List.map_cons, vinsOfLinks, List.filterMap_cons, vinChain_mk v hv, htv,
      if_true]
    simp only [vinsOfLinks] at ih
    rw [ih ht]

theorem any_jsEqStr (l : List String) (p : String) :
    (l.map Json.str).any (fun x => jsEqStr x p) = decide (p ∈ l) := by
  induction l with
  | nil => rfl
  | cons v t ih =>
    simp only [List.map_cons, List.any_cons, ih]
    simp only [jsEqStr, List.mem_cons]
    by_cases hvp : v = p
    · simp [hvp]
    · simp [hvp, Ne.symm hvp]

/-- C7: the charging-state normalization of `parseBattery`: an input with
chargingInstantaneousPower 2.1 yields isCharging = true; an input whose
chargingStatus is the numeric code q yields isCharging exactly when
q ≥ 0.9 (so 0.3 yields false); the string status "IN_PROGRESS" yields
true; and the remaining-time field alone never makes isCharging true. -/
theorem charging_state_normalization :
    (parseBattery (.obj [("data", .obj [("attributes",
        .obj [("chargingInstantaneousPower", .num (21 / 10))])])])).isCharging = true ∧
    (parseBattery (.obj [("data", .obj [("attributes",
        .obj [("chargingStatus", .num (3 / 10))])])])).isCharging = false ∧
    (∀ q : ℚ, (parseBattery (.obj [("data", .obj [("attributes",
        .obj [("chargingStatus", .num q)])])])).isCharging = decide ((9 : ℚ) / 10 ≤ q)) ∧
    (parseBattery (.obj [("data", .obj [("attributes",
        .obj [("chargingStatus", .str "IN_PROGRESS")])])])).isCharging = true ∧
    (∀ v : Json, (parseBattery (.obj [("data", .obj [("attributes",
        .obj [("chargingRemainingTime", v)])])])).isCharging = false) := by
  refine ⟨?_, ?_, parseBattery_num_status, by decide, fun v => rfl⟩
  · rw [parseBattery_num_power]
    exact decide_eq_true (by norm_num)
  · rw [parseBattery_num_status]
    exact decide_eq_false (by norm_num)

/-- C9: a non-forced `ensureContext` call made while a stored context
holds a token, an account id and a vin returns that context immediately:
no oracle outcome is consumed, no request is issued, and the state is
returned unchanged. -/
theorem ensure_context_fast_path (pv : Option String) (n : Nat) (s : W)
    (net : List NetOutcome) (c : Ctx) (hc : s.ctx = some c) (hr : ctxReady c = true) :
    ensureContext pv (n + 1) false s net = some ⟨.ok c, s, net, []⟩ :=
  ensure_fast pv n s net c hc hr

theorem ensure_context_fast_path_witness :
    ensureContext none 1 false
        ⟨some ⟨"ck0", "p0", "t0", "acc0", .str "VIN0"⟩, none, 0, none, false⟩ [] =
      some ⟨.ok ⟨"ck0", "p0", "t0", "acc0", .str "VIN0"⟩,
        ⟨some ⟨"ck0", "p0", "t0", "acc0", .str "VIN0"⟩, none, 0, none, false⟩, [], []⟩ :=
  ensure_context_fast_path none 0 _ _ _ rfl rfl

/-- Joining calls while an attempt is in flight only append waiters. -/
theorem lock_join_run (cs : List Nat) : ∀ (s : LockSt), s.inFlight = true →
    lockRun s (cs.map LockEv.call) = { s with waiters := s.waiters ++ cs } := by
  induction cs with
  | nil => intro s h; simp [lockRun]
  | cons c t ih =>
    intro s h
    simp only [List.map_cons, lockRun, List.foldl_cons]
    have h1 : lockStep s (.call c) = { s with waiters := s.waiters ++ [c] } := by
      simp [lockStep, h]
    rw [h1]
    have h2 := ih { s with waiters := s.waiters ++ [c] } h
    simp only [lockRun] at h2
    rw [h2]
    simp

/-- C2: single-flight re-login.  From an idle state, the first caller
claims the marker and starts exactly one credential exchange; every
further caller arriving while the attempt is in flight joins it without
starting an exchange; when the attempt completes — succeeding or failing
— every joined caller receives that one outcome, the marker is cleared,
and only then does a new call start a fresh exchange. -/
theorem single_flight_relogin (s : LockSt) (c1 c3 : Nat) (cs : List Nat) (o : Bool)
    (h : s.inFlight = false) :
    (lockStep s (.call c1)).exchanges = s.exchanges + 1 ∧
    (lockStep s (.call c1)).inFlight = true ∧
    (lockRun (lockStep s (.call c1)) (cs.map LockEv.call)).exchanges = s.exchanges + 1 ∧
    (lockStep (lockRun (lockStep s (.call c1)) (cs.map LockEv.call)) (.complete o)).outcomes
      = s.outcomes ++ (c1 :: cs).map (fun c => (c, o)) ∧
    (lockStep (lockRun (lockStep s (.call c1)) (cs.map LockEv.call)) (.complete o)).inFlight
      = false ∧
    (lockStep (lockStep (lockRun (lockStep s (.call c1)) (cs.map LockEv.call))
      (.complete o)) (.call c3)).exchanges = s.exchanges + 2 := by
  have h1 : lockStep s (.call c1) =
      { inFlight := true, waiters := [c1], exchanges := s.exchanges + 1,
        outcomes := s.outcomes } := by
    simp [lockStep, h]
  have h2 : lockRun (lockStep s (.call c1)) (cs.map LockEv.call) =
      { inFlight := true, waiters := c1 :: cs, exchanges := s.exchanges + 1,
        outcomes := s.outcomes } := by
    rw [h1, lock_join_run cs _ rfl]
    simp
  have h3 : lockStep (lockRun (lockStep s (.call c1)) (cs.map LockEv.call)) (.complete o) =
      { inFlight := false, waiters := [], exchanges := s.exchanges + 1,
        outcomes := s.outcomes ++ (c1 :: cs).map (fun c => (c, o)) } := by
    rw [h2]
    simp [lockStep]
  refine ⟨by rw [h1], by rw [h1], by rw [h2], by rw [h3], by rw [h3], ?_⟩
  rw [h3]
  simp [lockStep]

/-- The context the shared concrete bootstrap produces. -/
def ctx1 : Ctx := ⟨"ck", "p1", "t1", "acc1", .str "VIN1"⟩

/-- The vehicle metadata the shared concrete bootstrap produces. -/
def meta1 : Meta := ⟨.str "VIN1", .null, .null, .null, .null, .null⟩

/-- The requests a full bootstrap issues. -/
def bootLog : List NetReq :=
  [.gigyaLoginReq, .accountInfoReq "ck", .getJwtReq "ck",
   .kamGet "/commerce/v1/persons/p1" "t1",
   .kamGet "/commerce/v1/accounts/acc1/vehicles" "t1"]

/-- A bootstrap run against the shared concrete responses: five calls,
publication of `ctx1` and `meta1`, everything else in the state kept. -/
theorem ensure_boot_vin1 (n : Nat) (force : Bool) (s : W) (hs : s.ctx = none)
    (rest : List NetOutcome) :
    ensureContext none (n + 1) force s (bootNetFor ["VIN1"] ++ rest) =
      some ⟨.ok ctx1, { s with ctx := some ctx1, vehicleMeta := some meta1 }, rest,
        bootLog⟩ := by
  simp only [ensureContext]
  rw [hs]
  rfl

/-- The post-re-login state: fresh context and metadata, empty cache. -/
def stRelogin : W := ⟨some ctx1, some meta1, 0, none, false⟩

/-- A single-flight re-login run against the shared concrete responses:
it invalidates everything, rebuilds the context, restores the marker. -/
theorem relogin_vin1 (n : Nat) (s : W) (hb : s.reloginBusy = false)
    (rest : List NetOutcome) :
    reloginG (ensureContext none (n + 1) true) s (bootNetFor ["VIN1"] ++ rest) =
      some ⟨.ok (), stRelogin, rest, bootLog⟩ := by
  simp only [reloginG, hb]
  rw [ensure_boot_vin1 n true (invalidateContext { s with reloginBusy := true }) rfl rest]
  rfl

/-- C8: VIN selection during context bootstrap.  For every non-empty
resolved vehicle list, `ensureContext` publishes the preferred VIN as the
context's vin whenever it is set (truthy) and present in the list, and
the first vehicle of the list otherwise — in particular when the
preferred VIN is absent. -/
theorem vehicle_selection (pv : Option String) (v : String) (t : List String)
    (hne : ∀ x ∈ v :: t, x ≠ "") :
    (ensureContext pv 3 false ⟨none, none, 0, none, false⟩
        (bootNetFor (v :: t))).map (fun o => o.res.map Ctx.vin) =
      some (.ok (match pv with
        | some p => if p ≠ "" ∧ p ∈ v :: t then Json.str p else Json.str v
        | none => Json.str v)) := by
  have hA : accountsOf personBody = .arr [account1] := rfl
  have hAid : accountIdOf (selectAccount [account1]) = some (.str "acc1") := rfl
  have hL : linksOf (vehiclesBodyFor (v :: t)) = .arr ((v :: t).map mkVinLink) := rfl
  simp only [ensureContext]
  simp only [bootNetFor, ensureBoot, mbind, Out.andThen, gigyaLoginStep_ck,
    gigyaAccountInfoStep_p1, gigyaGetJwtStep_t1, kamGetG_resp200, hA, hAid, hL]
  simp only [List.isEmpty, truthyOpt, truthy, Option.getD, Bool.not_true, jsToStr,
    jsToStrLeaf]
  simp only [vinsOfLinks_map (v :: t) hne, selectVin, any_jsEqStr]
  cases pv with
  | none => simp [Option.map, Except.map]
  | some p =>
    by_cases hp1 : p = ""
    · simp [hp1, Option.map, Except.map]
    · by_cases hp2 : p ∈ v :: t
      · simp [hp1, hp2, Option.map, Except.map]
      · simp [hp1, hp2, Option.map, Except.map]

theorem vehicle_selection_witness :
    (ensureContext (some "VIN2") 3 false ⟨none, none, 0, none, false⟩
        (bootNetFor ["VIN1", "VIN2"])).map (fun o => o.res.map Ctx.vin) =
      some (.ok (.str "VIN2")) ∧
    (ensureContext (some "VIN9") 3 false ⟨none, none, 0, none, false⟩
        (bootNetFor ["VIN1", "VIN2"])).map (fun o => o.res.map Ctx.vin) =
      some (.ok (.str "VIN1")) := by
  constructor
  · have h := vehicle_selection (some "VIN2") "VIN1" ["VIN2"] (by decide)
    simpa using h
  · have h := vehicle_selection (some "VIN9") "VIN1" ["VIN2"] (by decide)
    simpa using h

/-- A held pre-existing context and the state carrying it, used as the
starting point of several scenario theorems. -/
def ctx0 : Ctx := ⟨"ck0", "p0", "t0", "acc0", .str "VIN0"⟩

def sW0 : W := ⟨some ctx0, none, 0, none, false⟩

/-- C1: the resilient request layer.  For a GET or POST whose first
attempt fails with an authorization-classified error, the layer triggers
the shared re-login and — once that produced a fresh context — retries
exactly once, issuing the retry with the refreshed context's token, not
the original one; the request log is exactly the first attempt, the
re-login's own requests, and the single retry.  The retry's outcome is
the caller's outcome unmodified: a fulfilled retry surfaces as success
with no visible error, a failed retry surfaces as that exact failure with
no further attempts. -/
theorem resilient_401_retry :
    (∀ (pv : Option String) (n : Nat) (path tok : String) (s : W)
      (o1 o2 : NetOutcome) (rest rest2 : List NetOutcome) (e : JsErr) (ro : Out Unit)
      (c : Ctx),
      kamGetFetchRes o1 = .error e → is401e e = true →
      reloginLocked pv (n + 1) s rest = some ro → ro.res = .ok () →
      ro.st.ctx = some c → ctxReady c = true → ro.net = o2 :: rest2 →
      kamereonGet pv (n + 1) path tok s (o1 :: rest) =
        some ⟨kamGetFetchRes o2, ro.st, rest2,
          .kamGet path tok :: (ro.log ++ [.kamGet path c.idToken])⟩) ∧
    (∀ (pv : Option String) (n : Nat) (path tok : String) (payload : Json) (s : W)
      (o1 o2 : NetOutcome) (rest rest2 : List NetOutcome) (e : JsErr) (ro : Out Unit)
      (c : Ctx),
      kamPostFetchRes o1 = .error e → is401e e = true →
      reloginLocked pv (n + 1) s rest = some ro → ro.res = .ok () →
      ro.st.ctx = some c → ctxReady c = true → ro.net = o2 :: rest2 →
      kamereonPost pv (n + 1) path tok payload s (o1 :: rest) =
        some ⟨kamPostFetchRes o2, ro.st, rest2,
          .kamPost path tok :: (ro.log ++ [.kamPost path c.idToken])⟩) := by
  constructor
  · intro pv n path tok s o1 o2 rest rest2 e ro c h1 h2 h3 h4 h5 h6 h7
    have h3g : reloginG (ensureContext pv (n + 1) true) s rest = some ro := h3
    have hef := ensure_fast pv n ro.st (o2 :: rest2) c h5 h6
    simp only [kamereonGet, kamereonGetG, h1, h2, h3g, h4, h7, hef]
    cases hfr : kamGetFetchRes o2 with
    | ok j => simp [hfr]
    | error e2 => simp [hfr]
  · intro pv n path tok payload s o1 o2 rest rest2 e ro c h1 h2 h3 h4 h5 h6 h7
    have h3g : reloginG (ensureContext pv (n + 1) true) s rest = some ro := h3
    have hef := ensure_fast pv n ro.st (o2 :: rest2) c h5 h6
    simp only [kamereonPost, kamereonPostG, h1, h2, h3g, h4, h7, hef]
    cases hfr : kamPostFetchRes o2 with
    | ok j => simp [hfr]
    | error e2 => simp [hfr]

theorem resilient_401_retry_witness :
    kamereonGet none 1 "/p" "t0" sW0
        (.resp 401 .null :: (bootNetFor ["VIN1"] ++ [.resp 200 .null])) =
      some ⟨kamGetFetchRes (.resp 200 .null), stRelogin, [],
        .kamGet "/p" "t0" :: (bootLog ++ [.kamGet "/p" ctx1.idToken])⟩ ∧
    kamereonPost none 1 "/p" "t0" .null sW0
        (.resp 401 .null :: (bootNetFor ["VIN1"] ++ [.resp 200 .null])) =
      some ⟨kamPostFetchRes (.resp 200 .null), stRelogin, [],
        .kamPost "/p" "t0" :: (bootLog ++ [.kamPost "/p" ctx1.idToken])⟩ := by
  constructor
  · exact resilient_401_retry.1 none 0 "/p" "t0" sW0 (.resp 401 .null)
      (.resp 200 .null) (bootNetFor ["VIN1"] ++ [.resp 200 .null]) []
      (.http "Kamereon GET 401" 401 .null) ⟨.ok (), stRelogin, [.resp 200 .null], bootLog⟩
      ctx1 rfl rfl (show reloginLocked none (0 + 1) sW0
        (bootNetFor ["VIN1"] ++ [.resp 200 .null]) =
          some ⟨.ok (), stRelogin, [.resp 200 .null], bootLog⟩
        from relogin_vin1 0 sW0 rfl [.resp 200 .null]) rfl rfl rfl rfl
  · exact resilient_401_retry.2 none 0 "/p" "t0" .null sW0 (.resp 401 .null)
      (.resp 200 .null) (bootNetFor ["VIN1"] ++ [.resp 200 .null]) []
      (.http "Kamereon POST 401" 401 .null) ⟨.ok (), stRelogin, [.resp 200 .null], bootLog⟩
      ctx1 rfl rfl (show reloginLocked none (0 + 1) sW0
        (bootNetFor ["VIN1"] ++ [.resp 200 .null]) =
          some ⟨.ok (), stRelogin, [.resp 200 .null], bootLog⟩
        from relogin_vin1 0 sW0 rfl [.resp 200 .null]) rfl rfl rfl rfl

/-- C3: the composite of a fan-out is cached exactly when no sub-fetch
settled with an authorization-classified failure.  First part: with all
four sub-fetches free of authorization failures — individual failures for
other reasons allowed, which surface as per-field error descriptors — the
composite IS stored, timestamped with the call time.  Second part: when
the battery sub-fetch fails 401, re-logs-in and fails 401 again on its
retry, the same composite shape is returned to the caller but the cache
is left empty, so the next read misses. -/
theorem summary_cache_auth_coupling :
    (∀ (pv : Option String) (n : Nat) (nowMs : Int) (s : W) (c : Ctx)
      (o1 o2 o3 o4 : NetOutcome) (rest : List NetOutcome),
      s.ctx = some c → ctxReady c = true → s.cacheData = none →
      is401 (errOf (kamGetFetchRes o1)) = false →
      is401 (errOf (kamGetFetchRes o2)) = false →
      is401 (errOf (kamGetFetchRes o3)) = false →
      is401 (errOf (kamGetFetchRes o4)) = false →
      getSummary pv (n + 1) nowMs s (o1 :: o2 :: o3 :: o4 :: rest) =
        some ⟨.ok (Summary.mk c.vin (metaField s.vehicleMeta Meta.model)
            (metaField s.vehicleMeta Meta.brand) (metaField s.vehicleMeta Meta.pictureUrl)
            (fRes parseBattery (kamGetFetchRes o1)) (fRes parseCockpit (kamGetFetchRes o2))
            (fRes parseHvac (kamGetFetchRes o3)) (fRes parseLocation (kamGetFetchRes o4))),
          { s with cacheAt := nowMs, cacheData := some (Summary.mk c.vin
              (metaField s.vehicleMeta Meta.model) (metaField s.vehicleMeta Meta.brand)
              (metaField s.vehicleMeta Meta.pictureUrl)
              (fRes parseBattery (kamGetFetchRes o1)) (fRes parseCockpit (kamGetFetchRes o2))
              (fRes parseHvac (kamGetFetchRes o3))
              (fRes parseLocation (kamGetFetchRes o4))) },
          rest,
          [.kamGet (READ_BATTERY_STATUS_URL c.accountId (jsToStr c.vin)) c.idToken,
           .kamGet (carPath c.accountId (jsToStr c.vin) "cockpit") c.idToken,
           .kamGet (carPath c.accountId (jsToStr c.vin) "hvac-status") c.idToken,
           .kamGet (carPath c.accountId (jsToStr c.vin) "location") c.idToken]⟩) ∧
    (∀ (n : Nat) (nowMs : Int) (s : W) (c : Ctx) (o2 o3 o4 : NetOutcome)
      (rest : List NetOutcome),
      s.ctx = some c → ctxReady c = true → s.cacheData = none → s.reloginBusy = false →
      is401 (errOf (kamGetFetchRes o2)) = false →
      is401 (errOf (kamGetFetchRes o3)) = false →
      is401 (errOf (kamGetFetchRes o4)) = false →
      getSummary none (n + 1) nowMs s
          (.resp 401 .null :: (bootNetFor ["VIN1"] ++
            (.resp 401 .null :: o2 :: o3 :: o4 :: rest))) =
        some ⟨.ok (Summary.mk c.vin .null .null .null
            (.err "Kamereon GET 401") (fRes parseCockpit (kamGetFetchRes o2))
            (fRes parseHvac (kamGetFetchRes o3)) (fRes parseLocation (kamGetFetchRes o4))),
          stRelogin,
          rest,
          (.kamGet (READ_BATTERY_STATUS_URL c.accountId (jsToStr c.vin)) c.idToken ::
            (bootLog ++
              [.kamGet (READ_BATTERY_STATUS_URL c.accountId (jsToStr c.vin)) "t1"])) ++
          [.kamGet (carPath c.accountId (jsToStr c.vin) "cockpit") c.idToken,
           .kamGet (carPath c.accountId (jsToStr c.vin) "hvac-status") c.idToken,
           .kamGet (carPath c.accountId (jsToStr c.vin) "location") c.idToken]⟩) := by
  constructor
  · intro pv n nowMs s c o1 o2 o3 o4 rest hc hr hd h1 h2 h3 h4
    have hensure := ensure_fast pv n s (o1 :: o2 :: o3 :: o4 :: rest) c hc hr
    simp only [getSummary]
    rw [hd]
    simp only [getSummaryMiss, mbind, Out.andThen]
    simp only [hensure]
    simp only [kamGetG_no401, h1, h2, h3, h4]
    simp [errOf, is401, fRes, h1, h2, h3, h4]
  · intro n nowMs s c o2 o3 o4 rest hc hr hd hb h2 h3 h4
    have hbat : kamereonGetG (reloginG (ensureContext none (n + 1) true))
        (ensureContext none (n + 1) false)
        (READ_BATTERY_STATUS_URL c.accountId (jsToStr c.vin)) c.idToken s
        (.resp 401 .null :: (bootNetFor ["VIN1"] ++
          (.resp 401 .null :: o2 :: o3 :: o4 :: rest))) =
        some ⟨.error (.http "Kamereon GET 401" 401 .null), stRelogin,
          o2 :: o3 :: o4 :: rest,
          .kamGet (READ_BATTERY_STATUS_URL c.accountId (jsToStr c.vin)) c.idToken ::
            (bootLog ++
              [.kamGet (READ_BATTERY_STATUS_URL c.accountId (jsToStr c.vin)) "t1"])⟩ := by
      simp only [kamereonGetG]
      rw [relogin_vin1 n s hb _]
      have hef : ensureContext none (n + 1) false stRelogin
          (.resp 401 .null :: o2 :: o3 :: o4 :: rest) =
          some ⟨.ok ctx1, stRelogin, .resp 401 .null :: o2 :: o3 :: o4 :: rest, []⟩ :=
        ensure_fast none n stRelogin _ ctx1 rfl rfl
      have hmsg : "Kamereon GET " ++ toString 401 = "Kamereon GET 401" := rfl
      simp [hef, kamGetFetchRes, resOk, is401e, msgHas401, ctx1, hmsg]
    have hensure := ensure_fast none n s (.resp 401 .null :: (bootNetFor ["VIN1"] ++
      (.resp 401 .null :: o2 :: o3 :: o4 :: rest))) c hc hr
    simp only [getSummary]
    rw [hd]
    simp only [getSummaryMiss, mbind, Out.andThen]
    simp only [hensure]
    simp only [hbat]
    simp only [kamGetG_no401, h2, h3, h4]
    have h401 : is401e (.http "Kamereon GET 401" 401 .null) = true := by decide
    simp [errOf, is401, fRes, errMsg, stRelogin, meta1, metaField, truthy, h401]

theorem summary_cache_auth_coupling_witness :
    getSummary none 1 9 ⟨some ctx1, none, 0, none, false⟩
        [.resp 200 .null, .resp 500 .null, .resp 200 .null, .resp 200 .null] =
      some ⟨.ok (Summary.mk ctx1.vin (metaField none Meta.model)
          (metaField none Meta.brand) (metaField none Meta.pictureUrl)
          (fRes parseBattery (kamGetFetchRes (.resp 200 .null)))
          (fRes parseCockpit (kamGetFetchRes (.resp 500 .null)))
          (fRes parseHvac (kamGetFetchRes (.resp 200 .null)))
          (fRes parseLocation (kamGetFetchRes (.resp 200 .null)))),
        ⟨some ctx1, none, 9,
          some (Summary.mk ctx1.vin (metaField none Meta.model)
            (metaField none Meta.brand) (metaField none Meta.pictureUrl)
            (fRes parseBattery (kamGetFetchRes (.resp 200 .null)))
            (fRes parseCockpit (kamGetFetchRes (.resp 500 .null)))
            (fRes parseHvac (kamGetFetchRes (.resp 200 .null)))
            (fRes parseLocation (kamGetFetchRes (.resp 200 .null)))), false⟩,
        [],
        [.kamGet (READ_BATTERY_STATUS_URL ctx1.accountId (jsToStr ctx1.vin)) ctx1.idToken,
         .kamGet (carPath ctx1.accountId (jsToStr ctx1.vin) "cockpit") ctx1.idToken,
         .kamGet (carPath ctx1.accountId (jsToStr ctx1.vin) "hvac-status") ctx1.idToken,
         .kamGet (carPath ctx1.accountId (jsToStr ctx1.vin) "location") ctx1.idToken]⟩ ∧
    getSummary none 1 9 ⟨some ctx1, none, 0, none, false⟩
        (.resp 401 .null :: (bootNetFor ["VIN1"] ++
          (.resp 401 .null :: .resp 200 .null :: .resp 200 .null :: .resp 200 .null ::
            []))) =
      some ⟨.ok (Summary.mk ctx1.vin .null .null .null
          (.err "Kamereon GET 401")
          (fRes parseCockpit (kamGetFetchRes (.resp 200 .null)))
          (fRes parseHvac (kamGetFetchRes (.resp 200 .null)))
          (fRes parseLocation (kamGetFetchRes (.resp 200 .null)))),
        stRelogin,
        [],
        (.kamGet (READ_BATTERY_STATUS_URL ctx1.accountId (jsToStr ctx1.vin)) ctx1.idToken ::
          (bootLog ++
            [.kamGet (READ_BATTERY_STATUS_URL ctx1.accountId (jsToStr ctx1.vin)) "t1"])) ++
        [.kamGet (carPath ctx1.accountId (jsToStr ctx1.vin) "cockpit") ctx1.idToken,
         .kamGet (carPath ctx1.accountId (jsToStr ctx1.vin) "hvac-status") ctx1.idToken,
         .kamGet (carPath ctx1.accountId (jsToStr ctx1.vin) "location") ctx1.idToken]⟩ :=
  ⟨summary_cache_auth_coupling.1 none 0 9 _ ctx1 (.resp 200 .null) (.resp 500 .null)
      (.resp 200 .null) (.resp 200 .null) [] rfl rfl rfl rfl rfl rfl rfl,
   summary_cache_auth_coupling.2 0 9 _ ctx1 (.resp 200 .null) (.resp 200 .null)
      (.resp 200 .null) [] rfl rfl rfl rfl rfl rfl rfl⟩

/-- A placeholder snapshot used as pre-existing cache content in the
scenario theorems. -/
def d0 : Summary :=
  ⟨.null, .null, .null, .null, .err "stale", .err "stale", .err "stale", .err "stale"⟩

/-- A state holding both a complete context and a cached snapshot. -/
def sCached : W := ⟨some ctx0, none, 0, some d0, false⟩

/-- C4 counterexample: the claim that a control action always leaves the
cache empty fails on the code.  With a cached snapshot present,
`startHvac` whose POST is rejected with a plain 500 — a non-authorization
failure, so the re-login path never runs — throws, and because the cache
clear is written after the awaited send rather than in a finally block,
the stale snapshot is still in the cache after the action threw. -/
theorem hvac_clear_cache_cex :
    (startHvac none 3 21 sCached [.resp 500 .null]).map
        (fun o => ((errOf o.res).isSome, o.st.cacheData.isSome)) = some (true, true) :=
  rfl

/-- C4 amended: `startHvac` and `stopHvac` clear the Snapshot Cache when
the POST send completes without throwing; when the send fails with a
non-authorization error, the explicit clear is skipped and the whole
state — the cache included — is exactly what it was before the send. -/
theorem hvac_clear_cache_on_completion :
    (∀ (pv : Option String) (n : Nat) (temp : ℚ) (s : W) (c : Ctx) (o : NetOutcome)
      (rest : List NetOutcome) (j : Json),
      s.ctx = some c → ctxReady c = true → kamPostFetchRes o = .ok j →
      startHvac pv (n + 1) temp s (o :: rest) =
        some ⟨.ok j, { s with cacheAt := 0, cacheData := none }, rest,
          [.kamPost (carPath c.accountId (jsToStr c.vin) "actions/hvac-start")
            c.idToken]⟩) ∧
    (∀ (pv : Option String) (n : Nat) (temp : ℚ) (s : W) (c : Ctx) (o : NetOutcome)
      (rest : List NetOutcome) (e : JsErr),
      s.ctx = some c → ctxReady c = true → kamPostFetchRes o = .error e →
      is401e e = false →
      startHvac pv (n + 1) temp s (o :: rest) =
        some ⟨.error e, s, rest,
          [.kamPost (carPath c.accountId (jsToStr c.vin) "actions/hvac-start")
            c.idToken]⟩) ∧
    (∀ (pv : Option String) (n : Nat) (s : W) (c : Ctx) (o : NetOutcome)
      (rest : List NetOutcome) (j : Json),
      s.ctx = some c → ctxReady c = true → kamPostFetchRes o = .ok j →
      stopHvac pv (n + 1) s (o :: rest) =
        some ⟨.ok j, { s with cacheAt := 0, cacheData := none }, rest,
          [.kamPost (carPath c.accountId (jsToStr c.vin) "actions/hvac-start")
            c.idToken]⟩) ∧
    (∀ (pv : Option String) (n : Nat) (s : W) (c : Ctx) (o : NetOutcome)
      (rest : List NetOutcome) (e : JsErr),
      s.ctx = some c → ctxReady c = true → kamPostFetchRes o = .error e →
      is401e e = false →
      stopHvac pv (n + 1) s (o :: rest) =
        some ⟨.error e, s, rest,
          [.kamPost (carPath c.accountId (jsToStr c.vin) "actions/hvac-start")
            c.idToken]⟩) := by
  refine ⟨?_, ?_, ?_, ?_⟩
  · intro pv n temp s c o rest j hc hr hok
    have hno : is401 (errOf (kamPostFetchRes o)) = false := by rw [hok]; rfl
    have hensure := ensure_fast pv n s (o :: rest) c hc hr
    simp only [startHvac, mbind, Out.andThen, hensure, kamereonPost]
    simp only [kamPostG_no401, hno]
    simp [hok]
  · intro pv n temp s c o rest e hc hr herr h401
    have hno : is401 (errOf (kamPostFetchRes o)) = false := by rw [herr]; simpa using h401
    have hensure := ensure_fast pv n s (o :: rest) c hc hr
    simp only [startHvac, mbind, Out.andThen, hensure, kamereonPost]
    simp only [kamPostG_no401, hno]
    simp [herr]
  · intro pv n s c o rest j hc hr hok
    have hno : is401 (errOf (kamPostFetchRes o)) = false := by rw [hok]; rfl
    have hensure := ensure_fast pv n s (o :: rest) c hc hr
    simp only [stopHvac, mbind, Out.andThen, hensure, kamereonPost]
    simp only [kamPostG_no401, hno]
    simp [hok]
  · intro pv n s c o rest e hc hr herr h401
    have hno : is401 (errOf (kamPostFetchRes o)) = false := by rw [herr]; simpa using h401
    have hensure := ensure_fast pv n s (o :: rest) c hc hr
    simp only [stopHvac, mbind, Out.andThen, hensure, kamereonPost]
    simp only [kamPostG_no401, hno]
    simp [herr]

theorem hvac_clear_cache_on_completion_witness :
    startHvac none 1 21 sCached [.respEmpty 200] =
      some ⟨.ok (.obj [("ok", .bool true)]),
        { sCached with cacheAt := 0, cacheData := none }, [],
        [.kamPost (carPath ctx0.accountId (jsToStr ctx0.vin) "actions/hvac-start")
          ctx0.idToken]⟩ ∧
    startHvac none 1 21 sCached [.resp 500 .null] =
      some ⟨.error (.http "Kamereon POST 500" 500 .null), sCached, [],
        [.kamPost (carPath ctx0.accountId (jsToStr ctx0.vin) "actions/hvac-start")
          ctx0.idToken]⟩ ∧
    stopHvac none 1 sCached [.respEmpty 200] =
      some ⟨.ok (.obj [("ok", .bool true)]),
        { sCached with cacheAt := 0, cacheData := none }, [],
        [.kamPost (carPath ctx0.accountId (jsToStr ctx0.vin) "actions/hvac-start")
          ctx0.idToken]⟩ ∧
    stopHvac none 1 sCached [.resp 500 .null] =
      some ⟨.error (.http "Kamereon POST 500" 500 .null), sCached, [],
        [.kamPost (carPath ctx0.accountId (jsToStr ctx0.vin) "actions/hvac-start")
          ctx0.idToken]⟩ :=
  ⟨hvac_clear_cache_on_completion.1 none 0 21 sCached ctx0 (.respEmpty 200) []
      (.obj [("ok", .bool true)]) rfl rfl rfl,
   hvac_clear_cache_on_completion.2.1 none 0 21 sCached ctx0 (.resp 500 .null) []
      (.http "Kamereon POST 500" 500 .null) rfl rfl rfl rfl,
   hvac_clear_cache_on_completion.2.2.1 none 0 sCached ctx0 (.respEmpty 200) []
      (.obj [("ok", .bool true)]) rfl rfl rfl,
   hvac_clear_cache_on_completion.2.2.2 none 0 sCached ctx0 (.resp 500 .null) []
      (.http "Kamereon POST 500" 500 .null) rfl rfl rfl rfl⟩

/-- C10 counterexample: the claim that a successful control action leaves
the Session Context unchanged fails on the code.  When the POST is first
rejected 401, the recovery re-login replaces the context; the retry then
succeeds, so the action completes successfully — yet the context now
carries the fresh token "t1" where the held context carried "t0" (and the
vehicle metadata was rebuilt as well). -/
theorem hvac_frame_cex :
    (startHvac none 1 21 sW0
        (.resp 401 .null :: (bootNetFor ["VIN1"] ++ [.respEmpty 200]))).map
        (fun o => ((errOf o.res).isSome, o.st.ctx.map Ctx.idToken,
          o.st.vehicleMeta.isSome)) = some (false, some "t1", true) ∧
    sW0.ctx.map Ctx.idToken = some "t0" ∧ sW0.vehicleMeta.isSome = false :=
  ⟨rfl, rfl, rfl⟩

/-- C10 amended: when `startHvac` or `stopHvac` completes successfully
with the POST succeeding on its first attempt — so no authorization
recovery ran — the only state change is the emptied Snapshot Cache: the
Session Context and the Vehicle Metadata after the call are the ones held
before it. -/
theorem hvac_frame_on_success :
    (∀ (pv : Option String) (n : Nat) (temp : ℚ) (s : W) (c : Ctx) (o : NetOutcome)
      (rest : List NetOutcome) (j : Json),
      s.ctx = some c → ctxReady c = true → kamPostFetchRes o = .ok j →
      (startHvac pv (n + 1) temp s (o :: rest)).map
          (fun o2 => (o2.st.ctx, o2.st.vehicleMeta, o2.st.cacheData, o2.st.cacheAt)) =
        some (s.ctx, s.vehicleMeta, none, 0)) ∧
    (∀ (pv : Option String) (n : Nat) (s : W) (c : Ctx) (o : NetOutcome)
      (rest : List NetOutcome) (j : Json),
      s.ctx = some c → ctxReady c = true → kamPostFetchRes o = .ok j →
      (stopHvac pv (n + 1) s (o :: rest)).map
          (fun o2 => (o2.st.ctx, o2.st.vehicleMeta, o2.st.cacheData, o2.st.cacheAt)) =
        some (s.ctx, s.vehicleMeta, none, 0)) := by
  constructor
  · intro pv n temp s c o rest j hc hr hok
    have hno : is401 (errOf (kamPostFetchRes o)) = false := by rw [hok]; rfl
    have hensure := ensure_fast pv n s (o :: rest) c hc hr
    simp only [startHvac, mbind, Out.andThen, hensure, kamereonPost]
    simp only [kamPostG_no401, hno]
    simp [hok]
  · intro pv n s c o rest j hc hr hok
    have hno : is401 (errOf (kamPostFetchRes o)) = false := by rw [hok]; rfl
    have hensure := ensure_fast pv n s (o :: rest) c hc hr
    simp only [stopHvac, mbind, Out.andThen, hensure, kamereonPost]
    simp only [kamPostG_no401, hno]
    simp [hok]

theorem hvac_frame_on_success_witness :
    (startHvac none 1 21 sCached [.respEmpty 200]).map
        (fun o2 => (o2.st.ctx, o2.st.vehicleMeta, o2.st.cacheData, o2.st.cacheAt)) =
      some (sCached.ctx, sCached.vehicleMeta, none, 0) ∧
    (stopHvac none 1 sCached [.respEmpty 200]).map
        (fun o2 => (o2.st.ctx, o2.st.vehicleMeta, o2.st.cacheData, o2.st.cacheAt)) =
      some (sCached.ctx, sCached.vehicleMeta, none, 0) :=
  ⟨hvac_frame_on_success.1 none 0 21 sCached ctx0 (.respEmpty 200) []
      (.obj [("ok", .bool true)]) rfl rfl rfl,
   hvac_frame_on_success.2 none 0 sCached ctx0 (.respEmpty 200) []
      (.obj [("ok", .bool true)]) rfl rfl rfl⟩

/-- C5: the snapshot TTL.  While a cached snapshot exists whose age is
strictly below the fixed 25-second TTL, `getSummary` returns the cached
payload, consumes no oracle outcome and issues no request; once the TTL
has elapsed it performs the full four-way fan-out again (shown here with
four fulfilled reads: the four telemetry requests are issued and a fresh
snapshot is cached at the new timestamp). -/
theorem snapshot_cache_ttl :
    (∀ (pv : Option String) (fuel : Nat) (nowMs : Int) (s : W) (net : List NetOutcome)
      (d : Summary), s.cacheData = some d → nowMs - s.cacheAt < TTL_MS →
      getSummary pv fuel nowMs s net = some ⟨.ok d, s, net, []⟩) ∧
    (∀ (pv : Option String) (n : Nat) (nowMs : Int) (s : W) (c : Ctx) (d : Summary)
      (b1 b2 b3 b4 : Json) (rest : List NetOutcome),
      s.ctx = some c → ctxReady c = true → s.cacheData = some d →
      ¬(nowMs - s.cacheAt < TTL_MS) →
      getSummary pv (n + 1) nowMs s
          (.resp 200 b1 :: .resp 200 b2 :: .resp 200 b3 :: .resp 200 b4 :: rest) =
        some ⟨.ok
          { vin := c.vin, model := metaField s.vehicleMeta Meta.model,
            brand := metaField s.vehicleMeta Meta.brand,
            pictureUrl := metaField s.vehicleMeta Meta.pictureUrl,
            battery := .ok (parseBattery b1), cockpit := .ok (parseCockpit b2),
            hvac := .ok (parseHvac b3), location := .ok (parseLocation b4) },
          { s with cacheAt := nowMs, cacheData := some (Summary.mk c.vin
              (metaField s.vehicleMeta Meta.model) (metaField s.vehicleMeta Meta.brand)
              (metaField s.vehicleMeta Meta.pictureUrl)
              (.ok (parseBattery b1)) (.ok (parseCockpit b2))
              (.ok (parseHvac b3)) (.ok (parseLocation b4))) },
          rest,
          [.kamGet (READ_BATTERY_STATUS_URL c.accountId (jsToStr c.vin)) c.idToken,
           .kamGet (carPath c.accountId (jsToStr c.vin) "cockpit") c.idToken,
           .kamGet (carPath c.accountId (jsToStr c.vin) "hvac-status") c.idToken,
           .kamGet (carPath c.accountId (jsToStr c.vin) "location") c.idToken]⟩) := by
  constructor
  · intro pv fuel nowMs s net d hd ht
    simp only [getSummary]
    rw [hd]
    simp [ht]
  · intro pv n nowMs s c d b1 b2 b3 b4 rest hc hr hd ht
    simp only [getSummary]
    rw [hd]
    simp only [if_neg ht]
    simp only [getSummaryMiss, mbind, Out.andThen]
    rw [ensure_fast pv n s _ c hc hr]
    rfl

theorem snapshot_cache_ttl_witness :
    getSummary none 1 20000 ⟨some ctx1, none, 1000, some d0, false⟩ [] =
      some ⟨.ok d0, ⟨some ctx1, none, 1000, some d0, false⟩, [], []⟩ ∧
    getSummary none 1 25000 ⟨some ctx1, none, 0, some d0, false⟩
        [.resp 200 .null, .resp 200 .null, .resp 200 .null, .resp 200 .null] =
      some ⟨.ok
        { vin := ctx1.vin, model := metaField none Meta.model,
          brand := metaField none Meta.brand,
          pictureUrl := metaField none Meta.pictureUrl,
          battery := .ok (parseBattery .null), cockpit := .ok (parseCockpit .null),
          hvac := .ok (parseHvac .null), location := .ok (parseLocation .null) },
        ⟨some ctx1, none, 25000, some (Summary.mk ctx1.vin
            (metaField none Meta.model) (metaField none Meta.brand)
            (metaField none Meta.pictureUrl)
            (.ok (parseBattery .null)) (.ok (parseCockpit .null))
            (.ok (parseHvac .null)) (.ok (parseLocation .null))), false⟩,
        [],
        [.kamGet (READ_BATTERY_STATUS_URL ctx1.accountId (jsToStr ctx1.vin)) ctx1.idToken,
         .kamGet (carPath ctx1.accountId (jsToStr ctx1.vin) "cockpit") ctx1.idToken,
         .kamGet (carPath ctx1.accountId (jsToStr ctx1.vin) "hvac-status") ctx1.idToken,
         .kamGet (carPath ctx1.accountId (jsToStr ctx1.vin) "location") ctx1.idToken]⟩ :=
  ⟨snapshot_cache_ttl.1 none 1 20000 _ [] d0 rfl (by norm_num [TTL_MS]),
   snapshot_cache_ttl.2 none 0 25000 _ ctx1 d0 .null .null .null .null [] rfl rfl rfl
     (by norm_num [TTL_MS])⟩

/-- C6: on a cache miss `getSummary` resolves the Session Context exactly
once — the request log shows a single credential exchange — and issues
the four telemetry reads all carrying the idToken "t1" of that single
resolution; all four reads are issued and appear in the composite even
when some settle with (non-authorization) failures, and the composite is
assembled only from their settled outcomes. -/
theorem fanout_single_resolution (n : Nat) (nowMs : Int) (o1 o2 o3 o4 : NetOutcome)
    (rest : List NetOutcome)
    (h1 : is401 (errOf (kamGetFetchRes o1)) = false)
    (h2 : is401 (errOf (kamGetFetchRes o2)) = false)
    (h3 : is401 (errOf (kamGetFetchRes o3)) = false)
    (h4 : is401 (errOf (kamGetFetchRes o4)) = false) :
    getSummary none (n + 1) nowMs ⟨none, none, 0, none, false⟩
        (bootNetFor ["VIN1"] ++ o1 :: o2 :: o3 :: o4 :: rest) =
      some ⟨.ok (Summary.mk (.str "VIN1") .null .null .null
          (fRes parseBattery (kamGetFetchRes o1)) (fRes parseCockpit (kamGetFetchRes o2))
          (fRes parseHvac (kamGetFetchRes o3)) (fRes parseLocation (kamGetFetchRes o4))),
        ⟨some ctx1, some meta1, nowMs, some (Summary.mk (.str "VIN1") .null .null .null
          (fRes parseBattery (kamGetFetchRes o1)) (fRes parseCockpit (kamGetFetchRes o2))
          (fRes parseHvac (kamGetFetchRes o3)) (fRes parseLocation (kamGetFetchRes o4))),
          false⟩,
        rest,
        bootLog ++
          [.kamGet (READ_BATTERY_STATUS_URL "acc1" "VIN1") "t1",
           .kamGet (carPath "acc1" "VIN1" "cockpit") "t1",
           .kamGet (carPath "acc1" "VIN1" "hvac-status") "t1",
           .kamGet (carPath "acc1" "VIN1" "location") "t1"]⟩ := by
  have hms : getSummary none (n + 1) nowMs ⟨none, none, 0, none, false⟩
      (bootNetFor ["VIN1"] ++ o1 :: o2 :: o3 :: o4 :: rest) =
    getSummaryMiss none (n + 1) nowMs ⟨none, none, 0, none, false⟩
      (bootNetFor ["VIN1"] ++ o1 :: o2 :: o3 :: o4 :: rest) := rfl
  rw [hms]
  simp only [getSummaryMiss, mbind, Out.andThen]
  rw [ensure_boot_vin1 n false _ rfl _]
  simp only [kamGetG_no401, h1, h2, h3, h4]
  simp [errOf, is401, fRes, ctx1, meta1, metaField, truthy, jsToStr, jsToStrLeaf]

theorem fanout_single_resolution_witness :
    getSummary none 1 7 ⟨none, none, 0, none, false⟩
        (bootNetFor ["VIN1"] ++ [.resp 200 .null, .resp 500 .null, .resp 200 .null,
          .resp 200 .null]) =
      some ⟨.ok (Summary.mk (.str "VIN1") .null .null .null
          (fRes parseBattery (kamGetFetchRes (.resp 200 .null)))
          (fRes parseCockpit (kamGetFetchRes (.resp 500 .null)))
          (fRes parseHvac (kamGetFetchRes (.resp 200 .null)))
          (fRes parseLocation (kamGetFetchRes (.resp 200 .null)))),
        ⟨some ctx1, some meta1, 7, some (Summary.mk (.str "VIN1") .null .null .null
          (fRes parseBattery (kamGetFetchRes (.resp 200 .null)))
          (fRes parseCockpit (kamGetFetchRes (.resp 500 .null)))
          (fRes parseHvac (kamGetFetchRes (.resp 200 .null)))
          (fRes parseLocation (kamGetFetchRes (.resp 200 .null)))),
          false⟩,
        [],
        bootLog ++
          [.kamGet (READ_BATTERY_STATUS_URL "acc1" "VIN1") "t1",
           .kamGet (carPath "acc1" "VIN1" "cockpit") "t1",
           .kamGet (carPath "acc1" "VIN1" "hvac-status") "t1",
           .kamGet (carPath "acc1" "VIN1" "location") "t1"]⟩ :=
  fanout_single_resolution 0 7 (.resp 200 .null) (.resp 500 .null) (.resp 200 .null)
    (.resp 200 .null) [] rfl rfl rfl rfl

theorem single_flight_relogin_witness :
    (lockStep lockInit (.call 1)).exchanges = 1 ∧
    (lockStep lockInit (.call 1)).inFlight = true ∧
    (lockRun (lockStep lockInit (.call 1)) ([2].map LockEv.call)).exchanges = 1 ∧
    (lockStep (lockRun (lockStep lockInit (.call 1)) ([2].map LockEv.call))
      (.complete false)).outcomes = [(1, false), (2, false)] ∧
    (lockStep (lockRun (lockStep lockInit (.call 1)) ([2].map LockEv.call))
      (.complete false)).inFlight = false ∧
    (lockStep (lockStep (lockRun (lockStep lockInit (.call 1)) ([2].map LockEv.call))
      (.complete false)) (.call 3)).exchanges = 2 :=
  single_flight_relogin lockInit 1 3 [2] false rfl

end Renault
